import Mathlib

/-!
# Lifecycle orchestration of the dice service

A shallow embedding of `src/otel.go` (`setupOTelSDK` with its `shutdown` and
`handleErr` closures, `newJaegerTraceProvider`, `newMeterProvider`) and of
`src/main.go` (`run`), together with the two standard-library pieces they rest
on: `errors.Join` and the deadline of a `context.Context`.

Every call that leaves the program (exporter construction, a provider's
`Shutdown`, the listener's `Shutdown`, `stop`) is recorded, with its argument
and its result, in a trace of `Event`s, and so is every call of the `shutdown`
closure.  The outcome of each call that leaves the program is supplied by an
environment `Env`, and so is the case the `select` in `run` takes.
-/

namespace Dice

/-! ## Errors: `errors.Join` -/

/-- A non-nil Go `error` value.  `base id` is an error that was not built by
`errors.Join` (identified by `id`); `joinError errs` is the `*joinError` that
`errors.Join` allocates, holding the slice of the errors it wraps.  A Go value
of type `error` is an `Option GoError`, `none` being `nil`. -/
inductive GoError where
  | base (id : Nat)
  | joinError (errs : List GoError)

namespace GoError

mutual
/-- The underlying failures of an error, left to right: the leaves reached by
following `Unwrap() []error` depth first, which is the order in which
`joinError.Error` prints them and `errors.Is` visits them. -/
def causes : GoError → List Nat
  | base id => [id]
  | joinError errs => causesList errs
/-- The causes of a slice of errors, concatenated in order. -/
def causesList : List GoError → List Nat
  | [] => []
  | e :: es => causes e ++ causesList es
end

end GoError

/-- The causes of a possibly nil error; `nil` has none. -/
def causesOpt : Option GoError → List Nat
  | none => []
  | some e => e.causes

/-- Standard library `errors.Join(errs ...error) error`: counts the non-nil
arguments, returns `nil` when there is none, and otherwise returns a fresh
`*joinError` whose slice holds the non-nil arguments in order.  It does not
flatten an argument that is itself a `*joinError`. -/
def Join (errs : List (Option GoError)) : Option GoError :=
  let es := errs.filterMap id
  if es.length = 0 then none else some (GoError.joinError es)

/-! ## Contexts -/

/-- A `context.Context` as far as its deadline goes: `context.Background()`,
a context derived with `context.WithDeadline`, and the context returned by
`signal.NotifyContext`.  The program itself only builds `Background` and
`NotifyContext Background`; `WithDeadline` is what a caller of the closures
may pass. -/
inductive Context where
  | Background
  | WithDeadline (parent : Context) (d : Nat)
  | NotifyContext (parent : Context)
  deriving DecidableEq, Repr

/-- Method `Deadline()` of a context: `Background` has none, `NotifyContext`
inherits its parent's, `WithDeadline` has the earlier of its own and its
parent's. -/
def Context.Deadline : Context → Option Nat
  | Background => none
  | WithDeadline p d =>
    match p.Deadline with
    | none => some d
    | some d0 => some (min d0 d)
  | NotifyContext p => p.Deadline

/-! ## Trace of external calls -/

/-- Which teardown callback was invoked. -/
inductive UnitName where
  | tracerProvider
  | meterProvider
  | other (n : Nat)
  deriving DecidableEq, Repr

/-- One observable step of the program, in source order of `main.go` and
`otel.go`.  Calls that return an `error` carry the value they returned. -/
inductive Event where
  /-- Line `signal.NotifyContext(context.Background(), os.Interrupt)`. -/
  | NotifyContext
  /-- Line `otel.SetTextMapPropagator(prop)`. -/
  | SetTextMapPropagator
  /-- Call `otlptracehttp.New(ctx, ...)` and the error it returned. -/
  | otlptracehttpNew (ctx : Context) (err : Option GoError)
  /-- Call `trace.NewTracerProvider(...)`. -/
  | NewTracerProvider
  /-- Line `otel.SetTracerProvider(tracerProvider)`. -/
  | SetTracerProvider
  /-- Call `stdoutmetric.New()` and the error it returned. -/
  | stdoutmetricNew (err : Option GoError)
  /-- Call `metric.NewMeterProvider(...)`. -/
  | NewMeterProvider
  /-- Line `otel.SetMeterProvider(meterProvider)`. -/
  | SetMeterProvider
  /-- A call `shutdown(ctx)` of the closure built by `setupOTelSDK` (in `run`
  it is named `otelShutdown`). -/
  | shutdown (ctx : Context)
  /-- A call `fn(ctx)` of a registered teardown callback and what it returned. -/
  | teardown (unit : UnitName) (ctx : Context) (err : Option GoError)
  /-- Construction of the `http.Server` value (with `newHTTPHandler()`). -/
  | newServer
  /-- Statement `go func() { srvErr <- srv.ListenAndServe() }()`. -/
  | goListenAndServe
  /-- The `select` took `case err = <-srvErr` and received this value. -/
  | recvSrvErr (err : Option GoError)
  /-- The `select` took `case <-ctx.Done()`. -/
  | ctxDone
  /-- A call of `stop()`. -/
  | stop
  /-- Call `srv.Shutdown(ctx)` and the error it returned. -/
  | srvShutdown (ctx : Context) (err : Option GoError)

/-- A value of type `func(context.Context) error` stored in `shutdownFuncs`.
What it returns may depend on its context and on everything that happened
before the call. -/
structure TeardownUnit where
  name : UnitName
  call : Context → List Event → Option GoError

/-- The variables a `shutdown` closure works on: the slice `shutdownFuncs` it
captured and the trace of the process so far. -/
structure State where
  shutdownFuncs : List TeardownUnit
  trace : List Event

/-! ## `otel.go` -/

/-- The loop `for _, fn := range shutdownFuncs { err = errors.Join(err, fn(ctx)) }`
of the `shutdown` closure, started with the current `err` and trace. -/
def shutdownLoop (ctx : Context) :
    List TeardownUnit → Option GoError → List Event → Option GoError × List Event
  | [], err, tr => (err, tr)
  | fn :: rest, err, tr =>
    let r := fn.call ctx tr
    shutdownLoop ctx rest (Join [err, r]) (tr ++ [Event.teardown fn.name ctx r])

/-- The closure `shutdown` of `setupOTelSDK` (otel.go lines 25-32): `var err error`,
the loop over `shutdownFuncs`, `shutdownFuncs = nil`, `return err`.  The call
itself is recorded in the trace before the loop starts. -/
def shutdown (ctx : Context) (s : State) : Option GoError × State :=
  let out := shutdownLoop ctx s.shutdownFuncs none (s.trace ++ [Event.shutdown ctx])
  (out.1, { shutdownFuncs := [], trace := out.2 })

/-- The closure `handleErr` of `setupOTelSDK` (otel.go lines 35-37):
`err = errors.Join(inErr, shutdown(ctx))`; the new value of the named result
`err` is returned with the state. -/
def handleErr (ctx : Context) (inErr : Option GoError) (s : State) :
    Option GoError × State :=
  let out := shutdown ctx s
  (Join [inErr, out.1], out.2)

/-- Outcomes of the calls that leave the program. -/
structure Env where
  /-- The error returned by `otlptracehttp.New(ctx, ...)`. -/
  otlptracehttpNew : Context → Option GoError
  /-- The error returned by `stdoutmetric.New()`. -/
  stdoutmetricNew : Option GoError
  /-- Method `Shutdown` of the tracer provider. -/
  tracerProviderShutdown : Context → List Event → Option GoError
  /-- Method `Shutdown` of the meter provider. -/
  meterProviderShutdown : Context → List Event → Option GoError
  /-- Which case of the `select` in `run` is taken: `some e` when `srvErr`
  delivers `e` first, `none` when `ctx.Done()` is closed first. -/
  srvErr : Option (Option GoError)
  /-- Method `Shutdown` of the `http.Server`. -/
  srvShutdown : Context → List Event → Option GoError

/-- A `*trace.TracerProvider`, as far as the program uses it. -/
structure TracerProvider where
  Shutdown : Context → List Event → Option GoError

/-- A `*metric.MeterProvider`, as far as the program uses it. -/
structure MeterProvider where
  Shutdown : Context → List Event → Option GoError

/-- Function `newJaegerTraceProvider(ctx)` (otel.go lines 72-86). -/
def newJaegerTraceProvider (env : Env) (ctx : Context) (tr : List Event) :
    Except GoError TracerProvider × List Event :=
  match env.otlptracehttpNew ctx with
  | some err => (.error err, tr ++ [Event.otlptracehttpNew ctx (some err)])
  | none =>
    (.ok ⟨env.tracerProviderShutdown⟩,
      tr ++ [Event.otlptracehttpNew ctx none, Event.NewTracerProvider])

/-- Function `newMeterProvider()` (otel.go lines 103-115). -/
def newMeterProvider (env : Env) (tr : List Event) :
    Except GoError MeterProvider × List Event :=
  match env.stdoutmetricNew with
  | some err => (.error err, tr ++ [Event.stdoutmetricNew (some err)])
  | none =>
    (.ok ⟨env.meterProviderShutdown⟩,
      tr ++ [Event.stdoutmetricNew none, Event.NewMeterProvider])

/-- Function `setupOTelSDK(ctx)` (otel.go lines 19-63).  The returned state is
the returned closure `shutdown` (its captured `shutdownFuncs`) together with
the trace; the second component is the named result `err`. -/
def setupOTelSDK (env : Env) (ctx : Context) (tr : List Event) :
    State × Option GoError :=
  let s0 : State := { shutdownFuncs := [], trace := tr ++ [Event.SetTextMapPropagator] }
  match newJaegerTraceProvider env ctx s0.trace with
  | (.error err, tr1) =>
    let out := handleErr ctx (some err) { s0 with trace := tr1 }
    (out.2, out.1)
  | (.ok tracerProvider, tr1) =>
    let s1 : State :=
      { shutdownFuncs := s0.shutdownFuncs ++ [⟨UnitName.tracerProvider, tracerProvider.Shutdown⟩],
        trace := tr1 ++ [Event.SetTracerProvider] }
    match newMeterProvider env s1.trace with
    | (.error err, tr2) =>
      let out := handleErr ctx (some err) { s1 with trace := tr2 }
      (out.2, out.1)
    | (.ok meterProvider, tr2) =>
      ({ shutdownFuncs := s1.shutdownFuncs ++ [⟨UnitName.meterProvider, meterProvider.Shutdown⟩],
         trace := tr2 ++ [Event.SetMeterProvider] }, none)

/-! ## `main.go` -/

/-- Function `run()` (main.go lines 41-83): the returned error and the trace
of the whole call, the deferred calls included (the deferred closure joining
`otelShutdown(context.Background())` runs first, `stop()` last). -/
def run (env : Env) : Option GoError × List Event :=
  let ctx := Context.NotifyContext Context.Background
  match setupOTelSDK env ctx [Event.NotifyContext] with
  | (s, some err) => (some err, s.trace ++ [Event.stop])
  | (s, none) =>
    let tr1 := s.trace ++ [Event.newServer, Event.goListenAndServe]
    match env.srvErr with
    | some e =>
      let out := shutdown Context.Background { s with trace := tr1 ++ [Event.recvSrvErr e] }
      (Join [e, out.1], out.2.trace ++ [Event.stop])
    | none =>
      let tr2 := tr1 ++ [Event.ctxDone, Event.stop]
      let r := env.srvShutdown Context.Background tr2
      let out := shutdown Context.Background
        { s with trace := tr2 ++ [Event.srvShutdown Context.Background r] }
      (Join [r, out.1], out.2.trace ++ [Event.stop])

/-! ## Values used in the statements

The state `run` reaches when setup succeeds, and the sample callbacks and
environments at which the theorems are instantiated. -/

/-- The registry `setupOTelSDK` returns when both constructions succeed. -/
def registry (env : Env) : List TeardownUnit :=
  [⟨UnitName.tracerProvider, env.tracerProviderShutdown⟩,
    ⟨UnitName.meterProvider, env.meterProviderShutdown⟩]

/-- The trace of `run` up to the `select`, when telemetry setup succeeds. -/
def startedTrace : List Event :=
  [Event.NotifyContext, Event.SetTextMapPropagator,
    Event.otlptracehttpNew (Context.NotifyContext Context.Background) none,
    Event.NewTracerProvider, Event.SetTracerProvider, Event.stdoutmetricNew none,
    Event.NewMeterProvider, Event.SetMeterProvider, Event.newServer, Event.goListenAndServe]

/-- A callback that fails with `base 7` on every call. -/
def unitA : TeardownUnit := ⟨UnitName.other 0, fun _ _ => some (GoError.base 7)⟩

/-- A callback that succeeds on every call. -/
def unitB : TeardownUnit := ⟨UnitName.other 1, fun _ _ => none⟩

/-- An environment in which the trace exporter cannot be built. -/
def envTraceFails : Env :=
  ⟨fun _ => some (GoError.base 1), none, fun _ _ => none, fun _ _ => none, none,
    fun _ _ => none⟩

/-- An environment in which the metric exporter cannot be built and the tracer
provider's `Shutdown` fails as well. -/
def envMeterFails : Env :=
  ⟨fun _ => none, some (GoError.base 2), fun _ _ => some (GoError.base 3), fun _ _ => none,
    none, fun _ _ => none⟩

/-- An environment in which everything succeeds and the interruption comes
first. -/
def envInterrupted : Env :=
  ⟨fun _ => none, none, fun _ _ => none, fun _ _ => none, none, fun _ _ => none⟩

/-- An environment in which setup succeeds, the listener reports `base 4`
before any interruption, and every `Shutdown` succeeds. -/
def envListenerFails : Env :=
  ⟨fun _ => none, none, fun _ _ => none, fun _ _ => none, some (some (GoError.base 4)),
    fun _ _ => none⟩

/-! ## Lemmas on `errors.Join` -/

/-- The causes of the non-nil members of a slice are the causes of its
members. -/
theorem causesList_filterMap (l : List (Option GoError)) :
    GoError.causesList (l.filterMap id) = l.flatMap causesOpt := by
  induction l with
  | nil => simp [GoError.causesList]
  | cons a l ih =>
    cases a with
    | none => simpa [causesOpt] using ih
    | some e => simp [GoError.causesList, causesOpt, ih]

/-- The causes of `errors.Join(errs...)` are the causes of its arguments, in
order. -/
theorem causesOpt_Join (l : List (Option GoError)) :
    causesOpt (Join l) = l.flatMap causesOpt := by
  unfold Join
  by_cases h : (l.filterMap id).length = 0
  · simp only [h, if_true, causesOpt]
    rw [← causesList_filterMap]
    have : l.filterMap id = [] := List.length_eq_zero.mp h
    simp [this, GoError.causesList]
  · simp only [h, if_false, causesOpt, GoError.causes]
    exact causesList_filterMap l

/-- The causes of `errors.Join(a, b)` are those of `a` followed by those of `b`. -/
theorem causesOpt_Join_pair (a b : Option GoError) :
    causesOpt (Join [a, b]) = causesOpt a ++ causesOpt b := by
  rw [causesOpt_Join]; simp

/-- The nil error has no cause. -/
theorem causesOpt_none : causesOpt none = [] := rfl

/-- The causes of a non-nil error value. -/
theorem causesOpt_some (e : GoError) : causesOpt (some e) = e.causes := rfl

/-- The value of `errors.Join(errs...)` is nil exactly when every argument is nil. -/
theorem Join_eq_none_iff (l : List (Option GoError)) :
    Join l = none ↔ ∀ r ∈ l, r = none := by
  unfold Join
  constructor
  · intro h r hr
    by_cases h0 : (l.filterMap id).length = 0
    · have hnil : l.filterMap id = [] := List.length_eq_zero.mp h0
      cases r with
      | none => rfl
      | some e =>
        have : e ∈ l.filterMap id := by
          simp [List.mem_filterMap]; exact hr
        rw [hnil] at this
        cases this
    · simp [h0] at h
  · intro h
    have : l.filterMap id = [] := by
      apply List.eq_nil_iff_forall_not_mem.mpr
      intro e he
      simp [List.mem_filterMap] at he
      have := h _ he
      cases this
    simp [this]

/-! ## The loop of `shutdown` -/

/-- The loop calls every callback of the slice once, in order, with `ctx`,
whatever the callbacks return; the error it ends with has the causes of the
error it started with followed by those of the returned values, and is nil
exactly when the start value and all returned values are nil. -/
theorem shutdownLoop_spec (ctx : Context) (fns : List TeardownUnit) :
    ∀ (err : Option GoError) (tr : List Event),
      ∃ rets : List (Option GoError),
        rets.length = fns.length ∧
        (shutdownLoop ctx fns err tr).2 =
          tr ++ List.zipWith (fun fn r => Event.teardown fn.name ctx r) fns rets ∧
        (∀ (i : Nat) (fn : TeardownUnit), fns[i]? = some fn →
          rets[i]? = some (fn.call ctx
            (tr ++ (List.zipWith (fun fn r => Event.teardown fn.name ctx r) fns rets).take i))) ∧
        causesOpt (shutdownLoop ctx fns err tr).1 = causesOpt err ++ rets.flatMap causesOpt ∧
        ((shutdownLoop ctx fns err tr).1 = none ↔ err = none ∧ ∀ r ∈ rets, r = none) := by
  induction fns with
  | nil =>
    intro err tr
    exact ⟨[], rfl, by simp [shutdownLoop], by simp, by simp [shutdownLoop],
      by simp [shutdownLoop]⟩
  | cons fn rest ih =>
    intro err tr
    obtain ⟨rets, hlen, htr, hret, hc, hnil⟩ :=
      ih (Join [err, fn.call ctx tr]) (tr ++ [Event.teardown fn.name ctx (fn.call ctx tr)])
    refine ⟨fn.call ctx tr :: rets, by simp [hlen], ?_, ?_, ?_, ?_⟩
    · simp only [shutdownLoop, htr]
      simp
    · intro i g hg
      cases i with
      | zero =>
        simp at hg
        subst hg
        simp
      | succ i =>
        simp at hg
        have := hret i g hg
        simpa using this
    · simp only [shutdownLoop, hc, causesOpt_Join]
      simp
    · simp only [shutdownLoop, hnil, Join_eq_none_iff]
      simp
      tauto


/-! ## The registry `shutdown` (claims C1, C3, C4) -/

/-- C1: for every slice of registered callbacks, every context and every
history, one call of the `shutdown` closure appends to the trace the call
itself and then exactly one invocation per registered callback, in insertion
order and with the context that was passed; each recorded result is what that
callback returned on the history up to its call, so a callback that returns an
error does not stop the loop; afterwards `shutdownFuncs` is empty. -/
theorem shutdown_invokes_every_unit_once (ctx : Context) (fns : List TeardownUnit)
    (tr : List Event) :
    ∃ rets : List (Option GoError),
      rets.length = fns.length ∧
      (shutdown ctx ⟨fns, tr⟩).2.trace =
        tr ++ Event.shutdown ctx ::
          List.zipWith (fun fn r => Event.teardown fn.name ctx r) fns rets ∧
      (∀ (i : Nat) (fn : TeardownUnit), fns[i]? = some fn →
        rets[i]? = some (fn.call ctx
          (tr ++ Event.shutdown ctx ::
            (List.zipWith (fun fn r => Event.teardown fn.name ctx r) fns rets).take i))) ∧
      (shutdown ctx ⟨fns, tr⟩).2.shutdownFuncs = [] := by
  obtain ⟨rets, hlen, htr, hret, -, -⟩ :=
    shutdownLoop_spec ctx fns none (tr ++ [Event.shutdown ctx])
  refine ⟨rets, hlen, ?_, ?_, rfl⟩
  · simpa [shutdown] using htr
  · intro i fn hfn
    simpa using hret i fn hfn

/-- C3: when the `shutdown` closure is called twice in a row (with any two
contexts), the second call returns nil and invokes no callback: it adds to the
trace nothing but the record of the call itself, whatever the callbacks
returned during the first call. -/
theorem shutdown_twice_second_is_noop (ctx1 ctx2 : Context) (s : State) :
    (shutdown ctx2 (shutdown ctx1 s).2).1 = none ∧
    (shutdown ctx2 (shutdown ctx1 s).2).2.trace =
      (shutdown ctx1 s).2.trace ++ [Event.shutdown ctx2] ∧
    (shutdown ctx2 (shutdown ctx1 s).2).2.shutdownFuncs = [] := by
  simp [shutdown, shutdownLoop]

/-- C4: the error returned by `shutdown` has as causes exactly the causes of the
values the callbacks returned, each once and in invocation order, and it is nil
exactly when every callback returned nil; when the registry is `[A, B]`, `A`
returns the error `eA` and `B` returns nil, both are invoked and the result is
the non-nil error `joinError [joinError [eA]]`, whose causes are those of `eA`,
once. -/
theorem shutdown_error_holds_exactly_the_failures (ctx : Context)
    (fns : List TeardownUnit) (tr : List Event) :
    (∃ rets : List (Option GoError),
      rets.length = fns.length ∧
      (shutdown ctx ⟨fns, tr⟩).2.trace =
        tr ++ Event.shutdown ctx ::
          List.zipWith (fun fn r => Event.teardown fn.name ctx r) fns rets ∧
      causesOpt (shutdown ctx ⟨fns, tr⟩).1 = rets.flatMap causesOpt ∧
      ((shutdown ctx ⟨fns, tr⟩).1 = none ↔ ∀ r ∈ rets, r = none)) ∧
    (∀ (A B : TeardownUnit) (eA : GoError), fns = [A, B] →
      A.call ctx (tr ++ [Event.shutdown ctx]) = some eA →
      B.call ctx (tr ++ [Event.shutdown ctx, Event.teardown A.name ctx (some eA)]) = none →
      (shutdown ctx ⟨fns, tr⟩).2.trace =
        tr ++ [Event.shutdown ctx, Event.teardown A.name ctx (some eA),
          Event.teardown B.name ctx none] ∧
      (shutdown ctx ⟨fns, tr⟩).1 = some (GoError.joinError [GoError.joinError [eA]]) ∧
      causesOpt (shutdown ctx ⟨fns, tr⟩).1 = eA.causes) := by
  constructor
  · obtain ⟨rets, hlen, htr, -, hc, hnil⟩ :=
      shutdownLoop_spec ctx fns none (tr ++ [Event.shutdown ctx])
    refine ⟨rets, hlen, ?_, ?_, ?_⟩
    · simpa [shutdown] using htr
    · simpa [shutdown, causesOpt] using hc
    · simpa [shutdown] using hnil
  · intro A B eA hfns hA hB
    subst hfns
    simp [shutdown, shutdownLoop, hA, hB, Join, causesOpt, GoError.causes,
      GoError.causesList]

/-- Witness for C4 at the registry `[unitA, unitB]`. -/
theorem shutdown_error_holds_exactly_the_failures_witness :
    (shutdown Context.Background ⟨[unitA, unitB], []⟩).2.trace =
        [] ++ [Event.shutdown Context.Background,
          Event.teardown unitA.name Context.Background (some (GoError.base 7)),
          Event.teardown unitB.name Context.Background none] ∧
      (shutdown Context.Background ⟨[unitA, unitB], []⟩).1 =
        some (GoError.joinError [GoError.joinError [GoError.base 7]]) ∧
      causesOpt (shutdown Context.Background ⟨[unitA, unitB], []⟩).1 =
        (GoError.base 7).causes :=
  (shutdown_error_holds_exactly_the_failures Context.Background [unitA, unitB] []).2
    unitA unitB (GoError.base 7) rfl rfl rfl

/-! ## `errors.Join` as a monoid (claim C9) -/

/-- C9, as stated, fails: `errors.Join(nil, X)` is a new `joinError` wrapping
`X`, not `X`; and `Join(Join(a, b), c)` and `Join(a, Join(b, c))` are nested
differently. -/
theorem Join_identity_and_assoc_fail :
    Join [none, some (GoError.base 1)] ≠ some (GoError.base 1) ∧
    Join [Join [some (GoError.base 1), some (GoError.base 2)], some (GoError.base 3)] ≠
      Join [some (GoError.base 1), Join [some (GoError.base 2), some (GoError.base 3)]] := by
  constructor <;> simp [Join]

/-- C9, amended: `errors.Join` is a monoid up to the sequence of causes.
`Join(nil, X)` is nil exactly when `X` is nil, is `X` wrapped once otherwise,
and has the causes of `X` (likewise `Join(X, nil)`); the causes of `Join(a, b)`
are those of `a` followed by those of `b`; `Join(Join(a, b), c)` and
`Join(a, Join(b, c))` have the same causes in the same order and are nil
together. -/
theorem Join_monoid_on_causes (X a b c : Option GoError) :
    (Join [none, X] = none ↔ X = none) ∧
    (∀ x : GoError, Join [none, some x] = some (GoError.joinError [x])) ∧
    causesOpt (Join [none, X]) = causesOpt X ∧
    causesOpt (Join [X, none]) = causesOpt X ∧
    causesOpt (Join [a, b]) = causesOpt a ++ causesOpt b ∧
    causesOpt (Join [Join [a, b], c]) = causesOpt (Join [a, Join [b, c]]) ∧
    causesOpt (Join [Join [a, b], c]) = causesOpt a ++ causesOpt b ++ causesOpt c ∧
    (Join [Join [a, b], c] = none ↔ Join [a, Join [b, c]] = none) := by
  refine ⟨?_, ?_, ?_, ?_, ?_, ?_, ?_, ?_⟩
  · simp [Join_eq_none_iff]
  · intro x; simp [Join]
  · rw [causesOpt_Join]; simp [causesOpt]
  · rw [causesOpt_Join]; simp [causesOpt]
  · simp [causesOpt_Join]
  · simp [causesOpt_Join]
  · simp [causesOpt_Join]
  · simp [Join_eq_none_iff]
    tauto


/-! ## `setupOTelSDK` (claim C2) -/

/-- When both constructions succeed, `setupOTelSDK` returns a nil error and a
registry holding the tracer provider's and the meter provider's `Shutdown`, in
that order; `shutdown` has not been called. -/
theorem setupOTelSDK_ok (env : Env) (ctx : Context) (tr : List Event)
    (h1 : env.otlptracehttpNew ctx = none) (h2 : env.stdoutmetricNew = none) :
    setupOTelSDK env ctx tr =
      (⟨[⟨UnitName.tracerProvider, env.tracerProviderShutdown⟩,
          ⟨UnitName.meterProvider, env.meterProviderShutdown⟩],
        tr ++ [Event.SetTextMapPropagator, Event.otlptracehttpNew ctx none,
          Event.NewTracerProvider, Event.SetTracerProvider, Event.stdoutmetricNew none,
          Event.NewMeterProvider, Event.SetMeterProvider]⟩, none) := by
  simp [setupOTelSDK, newJaegerTraceProvider, newMeterProvider, h1, h2]

/-- When the trace exporter cannot be built, `setupOTelSDK` calls `shutdown` on
the empty registry and stops there. -/
theorem setupOTelSDK_trace_fails (env : Env) (ctx : Context) (tr : List Event)
    (e : GoError) (h1 : env.otlptracehttpNew ctx = some e) :
    setupOTelSDK env ctx tr =
      (⟨[], tr ++ [Event.SetTextMapPropagator, Event.otlptracehttpNew ctx (some e),
          Event.shutdown ctx]⟩,
        some (GoError.joinError [e])) := by
  simp [setupOTelSDK, newJaegerTraceProvider, handleErr, shutdown, shutdownLoop, Join, h1]

/-- When the metric exporter cannot be built, `setupOTelSDK` calls `shutdown`,
which shuts the tracer provider down, and stops. -/
theorem setupOTelSDK_meter_fails (env : Env) (ctx : Context) (tr : List Event)
    (e : GoError) (h1 : env.otlptracehttpNew ctx = none)
    (h2 : env.stdoutmetricNew = some e) :
    setupOTelSDK env ctx tr =
      (⟨[], tr ++ [Event.SetTextMapPropagator, Event.otlptracehttpNew ctx none,
          Event.NewTracerProvider, Event.SetTracerProvider, Event.stdoutmetricNew (some e),
          Event.shutdown ctx,
          Event.teardown UnitName.tracerProvider ctx
            (env.tracerProviderShutdown ctx
              (tr ++ [Event.SetTextMapPropagator, Event.otlptracehttpNew ctx none,
                Event.NewTracerProvider, Event.SetTracerProvider,
                Event.stdoutmetricNew (some e), Event.shutdown ctx]))]⟩,
        Join [some e, Join [none, env.tracerProviderShutdown ctx
              (tr ++ [Event.SetTextMapPropagator, Event.otlptracehttpNew ctx none,
                Event.NewTracerProvider, Event.SetTracerProvider,
                Event.stdoutmetricNew (some e), Event.shutdown ctx])]]) := by
  simp [setupOTelSDK, newJaegerTraceProvider, newMeterProvider, handleErr, shutdown,
    shutdownLoop, h1, h2]

/-- The error of `setupOTelSDK` is nil exactly when both constructions succeed. -/
theorem setupOTelSDK_err_eq_none_iff (env : Env) (ctx : Context) (tr : List Event) :
    (setupOTelSDK env ctx tr).2 = none ↔
      env.otlptracehttpNew ctx = none ∧ env.stdoutmetricNew = none := by
  cases h1 : env.otlptracehttpNew ctx with
  | some e => simp [setupOTelSDK_trace_fails env ctx tr e h1]
  | none =>
    cases h2 : env.stdoutmetricNew with
    | some e =>
      rw [setupOTelSDK_meter_fails env ctx tr e h1 h2]
      simp [Join_eq_none_iff]
    | none => simp [setupOTelSDK_ok env ctx tr h1 h2]

/-- C2: when the trace exporter fails with `e`, `setupOTelSDK` returns
`Join(e, shutdown(ctx))` over an empty registry, which is `joinError [e]`; no
teardown callback is invoked and nothing of the meter provider is constructed.
When the trace provider is built and the metric exporter fails with `e`, the
tracer provider's `Shutdown` is invoked exactly once, with `ctx`, and the
returned error is `Join(e, shutdown(ctx))` over the registry holding just that
callback, that is `Join(e, Join(nil, r))` for the value `r` it returned; its
causes are those of `e` followed by those of `r`.  In both cases the registry
is left empty. -/
theorem setupOTelSDK_failure_joins_prior_teardown (env : Env) (ctx : Context)
    (tr : List Event) :
    (∀ e : GoError, env.otlptracehttpNew ctx = some e →
      (setupOTelSDK env ctx tr).2 =
        Join [some e, (shutdown ctx
          ⟨[], tr ++ [Event.SetTextMapPropagator,
            Event.otlptracehttpNew ctx (some e)]⟩).1] ∧
      (setupOTelSDK env ctx tr).2 = some (GoError.joinError [e]) ∧
      (setupOTelSDK env ctx tr).1.trace =
        tr ++ [Event.SetTextMapPropagator, Event.otlptracehttpNew ctx (some e),
          Event.shutdown ctx] ∧
      (setupOTelSDK env ctx tr).1.shutdownFuncs = []) ∧
    (∀ e : GoError, env.otlptracehttpNew ctx = none → env.stdoutmetricNew = some e →
      ∃ r : Option GoError,
        r = env.tracerProviderShutdown ctx
          (tr ++ [Event.SetTextMapPropagator, Event.otlptracehttpNew ctx none,
            Event.NewTracerProvider, Event.SetTracerProvider,
            Event.stdoutmetricNew (some e), Event.shutdown ctx]) ∧
        (setupOTelSDK env ctx tr).2 =
          Join [some e, (shutdown ctx
            ⟨[⟨UnitName.tracerProvider, env.tracerProviderShutdown⟩],
              tr ++ [Event.SetTextMapPropagator, Event.otlptracehttpNew ctx none,
                Event.NewTracerProvider, Event.SetTracerProvider,
                Event.stdoutmetricNew (some e)]⟩).1] ∧
        (setupOTelSDK env ctx tr).2 = Join [some e, Join [none, r]] ∧
        (setupOTelSDK env ctx tr).1.trace =
          tr ++ [Event.SetTextMapPropagator, Event.otlptracehttpNew ctx none,
            Event.NewTracerProvider, Event.SetTracerProvider,
            Event.stdoutmetricNew (some e), Event.shutdown ctx,
            Event.teardown UnitName.tracerProvider ctx r] ∧
        causesOpt (setupOTelSDK env ctx tr).2 = e.causes ++ causesOpt r ∧
        (setupOTelSDK env ctx tr).1.shutdownFuncs = []) := by
  constructor
  · intro e h1
    rw [setupOTelSDK_trace_fails env ctx tr e h1]
    simp [shutdown, shutdownLoop, Join]
  · intro e h1 h2
    rw [setupOTelSDK_meter_fails env ctx tr e h1 h2]
    refine ⟨_, rfl, ?_, rfl, rfl, ?_, rfl⟩
    · simp [shutdown, shutdownLoop]
    · rw [causesOpt_Join_pair, causesOpt_Join_pair, causesOpt_none, causesOpt_some,
        List.nil_append]

/-- Witness for C2 at `envTraceFails` and at `envMeterFails`. -/
theorem setupOTelSDK_failure_joins_prior_teardown_witness :
    ((setupOTelSDK envTraceFails Context.Background []).2 =
        some (GoError.joinError [GoError.base 1]) ∧
      (setupOTelSDK envTraceFails Context.Background []).1.trace =
        [] ++ [Event.SetTextMapPropagator,
          Event.otlptracehttpNew Context.Background (some (GoError.base 1)),
          Event.shutdown Context.Background]) ∧
    ((setupOTelSDK envMeterFails Context.Background []).2 =
        Join [some (GoError.base 2), Join [none, some (GoError.base 3)]] ∧
      (setupOTelSDK envMeterFails Context.Background []).1.trace =
        [] ++ [Event.SetTextMapPropagator, Event.otlptracehttpNew Context.Background none,
          Event.NewTracerProvider, Event.SetTracerProvider,
          Event.stdoutmetricNew (some (GoError.base 2)), Event.shutdown Context.Background,
          Event.teardown UnitName.tracerProvider Context.Background
            (some (GoError.base 3))]) := by
  have h1 := (setupOTelSDK_failure_joins_prior_teardown envTraceFails
    Context.Background []).1 (GoError.base 1) rfl
  obtain ⟨r, hr, -, herr, htr, -, -⟩ := (setupOTelSDK_failure_joins_prior_teardown
    envMeterFails Context.Background []).2 (GoError.base 2) rfl rfl
  subst hr
  exact ⟨⟨h1.2.1, h1.2.2.1⟩, ⟨herr, htr⟩⟩

/-! ## `run` (claims C5 to C8 and C10) -/

/-- The `shutdown` closure on the registry of a successful setup: the tracer
provider's `Shutdown`, then the meter provider's, each once with `ctx`. -/
theorem shutdown_registry (env : Env) (ctx : Context) (tr : List Event) :
    shutdown ctx ⟨registry env, tr⟩ =
      (Join [Join [none, env.tracerProviderShutdown ctx (tr ++ [Event.shutdown ctx])],
          env.meterProviderShutdown ctx
            (tr ++ [Event.shutdown ctx, Event.teardown UnitName.tracerProvider ctx
              (env.tracerProviderShutdown ctx (tr ++ [Event.shutdown ctx]))])],
        ⟨[], tr ++ [Event.shutdown ctx,
            Event.teardown UnitName.tracerProvider ctx
              (env.tracerProviderShutdown ctx (tr ++ [Event.shutdown ctx])),
            Event.teardown UnitName.meterProvider ctx
              (env.meterProviderShutdown ctx
                (tr ++ [Event.shutdown ctx, Event.teardown UnitName.tracerProvider ctx
                  (env.tracerProviderShutdown ctx (tr ++ [Event.shutdown ctx]))]))]⟩) := by
  simp [shutdown, shutdownLoop, registry]

/-- When setup fails, `run` returns the error of `setupOTelSDK` and only runs
the deferred `stop()`. -/
theorem run_setup_fails (env : Env) (e : GoError)
    (h : (setupOTelSDK env (Context.NotifyContext Context.Background)
      [Event.NotifyContext]).2 = some e) :
    run env = (some e,
      (setupOTelSDK env (Context.NotifyContext Context.Background)
        [Event.NotifyContext]).1.trace ++ [Event.stop]) := by
  unfold run
  dsimp only
  generalize setupOTelSDK env (Context.NotifyContext Context.Background)
    [Event.NotifyContext] = out at h
  obtain ⟨s, err⟩ := out
  simp at h
  subst h
  rfl

/-- When setup succeeds and `srvErr` delivers `e` first, `run` returns from the
`select` and runs the deferred telemetry teardown and `stop()`. -/
theorem run_srvErr_path (env : Env) (e : Option GoError)
    (h1 : env.otlptracehttpNew (Context.NotifyContext Context.Background) = none)
    (h2 : env.stdoutmetricNew = none) (h3 : env.srvErr = some e) :
    run env =
      (Join [e, (shutdown Context.Background
          ⟨registry env, startedTrace ++ [Event.recvSrvErr e]⟩).1],
        (shutdown Context.Background
          ⟨registry env, startedTrace ++ [Event.recvSrvErr e]⟩).2.trace ++ [Event.stop]) := by
  unfold run
  dsimp only
  rw [setupOTelSDK_ok env _ _ h1 h2]
  simp [h3, registry, startedTrace]

/-- When setup succeeds and `ctx.Done()` is closed first, `run` calls `stop()`,
then `srv.Shutdown(context.Background())`, then the deferred telemetry teardown
and `stop()`. -/
theorem run_ctxDone_path (env : Env)
    (h1 : env.otlptracehttpNew (Context.NotifyContext Context.Background) = none)
    (h2 : env.stdoutmetricNew = none) (h3 : env.srvErr = none) :
    run env =
      (Join [env.srvShutdown Context.Background
            (startedTrace ++ [Event.ctxDone, Event.stop]),
          (shutdown Context.Background
            ⟨registry env, startedTrace ++ [Event.ctxDone, Event.stop,
              Event.srvShutdown Context.Background
                (env.srvShutdown Context.Background
                  (startedTrace ++ [Event.ctxDone, Event.stop]))]⟩).1],
        (shutdown Context.Background
            ⟨registry env, startedTrace ++ [Event.ctxDone, Event.stop,
              Event.srvShutdown Context.Background
                (env.srvShutdown Context.Background
                  (startedTrace ++ [Event.ctxDone, Event.stop]))]⟩).2.trace ++
          [Event.stop]) := by
  unfold run
  dsimp only
  rw [setupOTelSDK_ok env _ _ h1 h2]
  simp [h3, registry, startedTrace]


/-- The trace of `run` when the trace exporter cannot be built. -/
theorem run_trace_of_trace_failure (env : Env) (e : GoError)
    (h1 : env.otlptracehttpNew (Context.NotifyContext Context.Background) = some e) :
    (run env).2 = [Event.NotifyContext, Event.SetTextMapPropagator,
      Event.otlptracehttpNew (Context.NotifyContext Context.Background) (some e),
      Event.shutdown (Context.NotifyContext Context.Background), Event.stop] := by
  have hs := setupOTelSDK_trace_fails env _ [Event.NotifyContext] e h1
  rw [run_setup_fails env (GoError.joinError [e]) (by rw [hs]), hs]
  rfl

/-- The trace of `run` when the metric exporter cannot be built. -/
theorem run_trace_of_meter_failure (env : Env) (e : GoError)
    (h1 : env.otlptracehttpNew (Context.NotifyContext Context.Background) = none)
    (h2 : env.stdoutmetricNew = some e) :
    (run env).2 = [Event.NotifyContext, Event.SetTextMapPropagator,
      Event.otlptracehttpNew (Context.NotifyContext Context.Background) none,
      Event.NewTracerProvider, Event.SetTracerProvider, Event.stdoutmetricNew (some e),
      Event.shutdown (Context.NotifyContext Context.Background),
      Event.teardown UnitName.tracerProvider (Context.NotifyContext Context.Background)
        (env.tracerProviderShutdown (Context.NotifyContext Context.Background)
          [Event.NotifyContext, Event.SetTextMapPropagator,
            Event.otlptracehttpNew (Context.NotifyContext Context.Background) none,
            Event.NewTracerProvider, Event.SetTracerProvider,
            Event.stdoutmetricNew (some e),
            Event.shutdown (Context.NotifyContext Context.Background)]),
      Event.stop] := by
  have hs := setupOTelSDK_meter_fails env _ [Event.NotifyContext] e h1 h2
  obtain ⟨e0, he⟩ : ∃ e0, (setupOTelSDK env (Context.NotifyContext Context.Background)
      [Event.NotifyContext]).2 = some e0 := by
    rw [hs]
    simp [Join]
  rw [run_setup_fails env e0 he, hs]
  rfl

/-- The trace of `run` when setup succeeds and `srvErr` delivers `e` first. -/
theorem run_trace_of_srvErr (env : Env) (e : Option GoError)
    (h1 : env.otlptracehttpNew (Context.NotifyContext Context.Background) = none)
    (h2 : env.stdoutmetricNew = none) (h3 : env.srvErr = some e) :
    (run env).2 = startedTrace ++ [Event.recvSrvErr e, Event.shutdown Context.Background,
      Event.teardown UnitName.tracerProvider Context.Background
        (env.tracerProviderShutdown Context.Background
          (startedTrace ++ [Event.recvSrvErr e, Event.shutdown Context.Background])),
      Event.teardown UnitName.meterProvider Context.Background
        (env.meterProviderShutdown Context.Background
          (startedTrace ++ [Event.recvSrvErr e, Event.shutdown Context.Background,
            Event.teardown UnitName.tracerProvider Context.Background
              (env.tracerProviderShutdown Context.Background
                (startedTrace ++ [Event.recvSrvErr e, Event.shutdown Context.Background]))])),
      Event.stop] := by
  rw [run_srvErr_path env _ h1 h2 h3, shutdown_registry]
  simp

/-- The trace of `run` when setup succeeds and the interruption comes first. -/
theorem run_trace_of_ctxDone (env : Env)
    (h1 : env.otlptracehttpNew (Context.NotifyContext Context.Background) = none)
    (h2 : env.stdoutmetricNew = none) (h3 : env.srvErr = none) :
    (run env).2 = startedTrace ++ [Event.ctxDone, Event.stop,
      Event.srvShutdown Context.Background
        (env.srvShutdown Context.Background (startedTrace ++ [Event.ctxDone, Event.stop])),
      Event.shutdown Context.Background,
      Event.teardown UnitName.tracerProvider Context.Background
        (env.tracerProviderShutdown Context.Background
          (startedTrace ++ [Event.ctxDone, Event.stop,
            Event.srvShutdown Context.Background
              (env.srvShutdown Context.Background
                (startedTrace ++ [Event.ctxDone, Event.stop])),
            Event.shutdown Context.Background])),
      Event.teardown UnitName.meterProvider Context.Background
        (env.meterProviderShutdown Context.Background
          (startedTrace ++ [Event.ctxDone, Event.stop,
            Event.srvShutdown Context.Background
              (env.srvShutdown Context.Background
                (startedTrace ++ [Event.ctxDone, Event.stop])),
            Event.shutdown Context.Background,
            Event.teardown UnitName.tracerProvider Context.Background
              (env.tracerProviderShutdown Context.Background
                (startedTrace ++ [Event.ctxDone, Event.stop,
                  Event.srvShutdown Context.Background
                    (env.srvShutdown Context.Background
                      (startedTrace ++ [Event.ctxDone, Event.stop])),
                  Event.shutdown Context.Background]))])),
      Event.stop] := by
  rw [run_ctxDone_path env h1 h2 h3, shutdown_registry]
  simp

/-- The four shapes the trace of `run` can have: the trace exporter fails; the
metric exporter fails; the listener reports on `srvErr` first; the interruption
comes first.  In the first two the error of `setupOTelSDK` is not nil. -/
theorem run_trace_shape (env : Env) :
    ((setupOTelSDK env (Context.NotifyContext Context.Background)
        [Event.NotifyContext]).2 ≠ none ∧
      ∃ e : GoError, (run env).2 = [Event.NotifyContext, Event.SetTextMapPropagator,
        Event.otlptracehttpNew (Context.NotifyContext Context.Background) (some e),
        Event.shutdown (Context.NotifyContext Context.Background), Event.stop]) ∨
    ((setupOTelSDK env (Context.NotifyContext Context.Background)
        [Event.NotifyContext]).2 ≠ none ∧
      ∃ (e : GoError) (r : Option GoError),
        (run env).2 = [Event.NotifyContext, Event.SetTextMapPropagator,
          Event.otlptracehttpNew (Context.NotifyContext Context.Background) none,
          Event.NewTracerProvider, Event.SetTracerProvider, Event.stdoutmetricNew (some e),
          Event.shutdown (Context.NotifyContext Context.Background),
          Event.teardown UnitName.tracerProvider (Context.NotifyContext Context.Background) r,
          Event.stop]) ∨
    (∃ e r2 r3 : Option GoError,
      (run env).2 = startedTrace ++ [Event.recvSrvErr e, Event.shutdown Context.Background,
        Event.teardown UnitName.tracerProvider Context.Background r2,
        Event.teardown UnitName.meterProvider Context.Background r3, Event.stop]) ∨
    (∃ rL r2 r3 : Option GoError,
      (run env).2 = startedTrace ++ [Event.ctxDone, Event.stop,
        Event.srvShutdown Context.Background rL, Event.shutdown Context.Background,
        Event.teardown UnitName.tracerProvider Context.Background r2,
        Event.teardown UnitName.meterProvider Context.Background r3, Event.stop]) := by
  cases h1 : env.otlptracehttpNew (Context.NotifyContext Context.Background) with
  | some e1 =>
    refine Or.inl ⟨?_, e1, run_trace_of_trace_failure env e1 h1⟩
    intro hn
    rw [setupOTelSDK_err_eq_none_iff, h1] at hn
    simp at hn
  | none =>
    cases h2 : env.stdoutmetricNew with
    | some e2 =>
      refine Or.inr (Or.inl ⟨?_, e2, _, run_trace_of_meter_failure env e2 h1 h2⟩)
      intro hn
      rw [setupOTelSDK_err_eq_none_iff, h2] at hn
      simp at hn
    | none =>
      cases h3 : env.srvErr with
      | some e3 => exact Or.inr (Or.inr (Or.inl ⟨e3, _, _, run_trace_of_srvErr env e3 h1 h2 h3⟩))
      | none => exact Or.inr (Or.inr (Or.inr ⟨_, _, _, run_trace_of_ctxDone env h1 h2 h3⟩))

/-- C5: when setup succeeded and the interruption comes before any listener
error, `run` calls `stop()`, then the listener's `Shutdown` (once), and only
after it has returned the telemetry teardown `otelShutdown` (once; it calls the
tracer provider's and the meter provider's `Shutdown`, once each), all with
`context.Background()`; the value `run` returns is `Join` of the listener's
result and the teardown result, which is nil when both are nil. -/
theorem run_interrupt_listener_then_telemetry (env : Env)
    (hsetup : (setupOTelSDK env (Context.NotifyContext Context.Background)
      [Event.NotifyContext]).2 = none)
    (hsel : env.srvErr = none) :
    ∃ rL r2 r3 : Option GoError,
      rL = env.srvShutdown Context.Background (startedTrace ++ [Event.ctxDone, Event.stop]) ∧
      r2 = env.tracerProviderShutdown Context.Background
        (startedTrace ++ [Event.ctxDone, Event.stop,
          Event.srvShutdown Context.Background rL, Event.shutdown Context.Background]) ∧
      r3 = env.meterProviderShutdown Context.Background
        (startedTrace ++ [Event.ctxDone, Event.stop,
          Event.srvShutdown Context.Background rL, Event.shutdown Context.Background,
          Event.teardown UnitName.tracerProvider Context.Background r2]) ∧
      (run env).2 = startedTrace ++ [Event.ctxDone, Event.stop,
        Event.srvShutdown Context.Background rL, Event.shutdown Context.Background,
        Event.teardown UnitName.tracerProvider Context.Background r2,
        Event.teardown UnitName.meterProvider Context.Background r3, Event.stop] ∧
      (shutdown Context.Background ⟨registry env, startedTrace ++ [Event.ctxDone, Event.stop,
          Event.srvShutdown Context.Background rL]⟩).1 = Join [Join [none, r2], r3] ∧
      (run env).1 = Join [rL, (shutdown Context.Background
        ⟨registry env, startedTrace ++ [Event.ctxDone, Event.stop,
          Event.srvShutdown Context.Background rL]⟩).1] ∧
      (rL = none →
        (shutdown Context.Background ⟨registry env, startedTrace ++ [Event.ctxDone, Event.stop,
          Event.srvShutdown Context.Background rL]⟩).1 = none →
        (run env).1 = none) := by
  obtain ⟨h1, h2⟩ := (setupOTelSDK_err_eq_none_iff env _ _).mp hsetup
  refine ⟨_, _, _, rfl, rfl, rfl, run_trace_of_ctxDone env h1 h2 hsel, ?_, ?_, ?_⟩
  · rw [shutdown_registry]
    simp
  · rw [run_ctxDone_path env h1 h2 hsel]
  · intro hL hT
    rw [run_ctxDone_path env h1 h2 hsel]
    simp only [hT]
    rw [hL]
    simp [Join]

/-- Witness for C5 at `envInterrupted`. -/
theorem run_interrupt_listener_then_telemetry_witness :
    (run envInterrupted).2 = startedTrace ++ [Event.ctxDone, Event.stop,
        Event.srvShutdown Context.Background none, Event.shutdown Context.Background,
        Event.teardown UnitName.tracerProvider Context.Background none,
        Event.teardown UnitName.meterProvider Context.Background none, Event.stop] ∧
      (run envInterrupted).1 = none := by
  obtain ⟨rL, r2, r3, hL, h2, h3, htr, hT, -, hnil⟩ :=
    run_interrupt_listener_then_telemetry envInterrupted rfl rfl
  subst hL h2 h3
  exact ⟨htr, hnil rfl (by rw [hT]; rfl)⟩

/-- C7: when setup succeeded and the listener reports the error `e` before any
interruption, the telemetry teardown `otelShutdown` still runs, exactly once,
calling each provider's `Shutdown` exactly once, and `run` returns
`Join(e, teardown result)`; when the teardown result is nil this is
`joinError [e]`; in every case it is not nil and its causes are those of `e`
followed by those of the teardown failures. -/
theorem run_listener_error_still_tears_down_telemetry (env : Env) (e : GoError)
    (hsetup : (setupOTelSDK env (Context.NotifyContext Context.Background)
      [Event.NotifyContext]).2 = none)
    (hsel : env.srvErr = some (some e)) :
    ∃ r2 r3 : Option GoError,
      r2 = env.tracerProviderShutdown Context.Background
        (startedTrace ++ [Event.recvSrvErr (some e), Event.shutdown Context.Background]) ∧
      r3 = env.meterProviderShutdown Context.Background
        (startedTrace ++ [Event.recvSrvErr (some e), Event.shutdown Context.Background,
          Event.teardown UnitName.tracerProvider Context.Background r2]) ∧
      (run env).2 = startedTrace ++ [Event.recvSrvErr (some e),
        Event.shutdown Context.Background,
        Event.teardown UnitName.tracerProvider Context.Background r2,
        Event.teardown UnitName.meterProvider Context.Background r3, Event.stop] ∧
      (shutdown Context.Background
        ⟨registry env, startedTrace ++ [Event.recvSrvErr (some e)]⟩).1 =
          Join [Join [none, r2], r3] ∧
      (run env).1 = Join [some e, (shutdown Context.Background
        ⟨registry env, startedTrace ++ [Event.recvSrvErr (some e)]⟩).1] ∧
      ((shutdown Context.Background
        ⟨registry env, startedTrace ++ [Event.recvSrvErr (some e)]⟩).1 = none →
        (run env).1 = some (GoError.joinError [e])) ∧
      (run env).1 ≠ none ∧
      causesOpt (run env).1 = e.causes ++ (causesOpt r2 ++ causesOpt r3) := by
  obtain ⟨h1, h2⟩ := (setupOTelSDK_err_eq_none_iff env _ _).mp hsetup
  refine ⟨_, _, rfl, rfl, run_trace_of_srvErr env _ h1 h2 hsel, ?_, ?_, ?_, ?_, ?_⟩
  · rw [shutdown_registry]
    simp
  · rw [run_srvErr_path env _ h1 h2 hsel]
  · intro hT
    rw [run_srvErr_path env _ h1 h2 hsel]
    simp only [hT]
    simp [Join]
  · rw [run_srvErr_path env _ h1 h2 hsel]
    intro h
    have h0 : Join [some e, (shutdown Context.Background
        ⟨registry env, startedTrace ++ [Event.recvSrvErr (some e)]⟩).1] = none := h
    have := (Join_eq_none_iff _).mp h0 (some e) (List.mem_cons_self _ _)
    cases this
  · rw [run_srvErr_path env _ h1 h2 hsel, shutdown_registry]
    simp only [causesOpt_Join_pair, causesOpt_none, causesOpt_some, List.nil_append]
    simp

/-- Witness for C7 at `envListenerFails`. -/
theorem run_listener_error_still_tears_down_telemetry_witness :
    (run envListenerFails).2 = startedTrace ++ [Event.recvSrvErr (some (GoError.base 4)),
        Event.shutdown Context.Background,
        Event.teardown UnitName.tracerProvider Context.Background none,
        Event.teardown UnitName.meterProvider Context.Background none, Event.stop] ∧
      (run envListenerFails).1 = some (GoError.joinError [GoError.base 4]) := by
  obtain ⟨r2, r3, h2, h3, htr, hT, -, hnil, -, -⟩ :=
    run_listener_error_still_tears_down_telemetry envListenerFails (GoError.base 4) rfl rfl
  subst h2 h3
  exact ⟨htr, hnil (by rw [hT]; rfl)⟩

/-- C8: when `setupOTelSDK` returns the error `e`, `run` returns `e` itself; the
trace of `run` is that of `setupOTelSDK` followed by the deferred `stop()` alone,
so the server is neither built nor started, the listener's `Shutdown` is not
called, and the returned `otelShutdown` is not called: `run` would call it with
`context.Background()`, and no call of the closure and no callback invocation
with that context occurs. -/
theorem run_returns_setup_error_unchanged (env : Env) (e : GoError)
    (h : (setupOTelSDK env (Context.NotifyContext Context.Background)
      [Event.NotifyContext]).2 = some e) :
    (run env).1 = some e ∧
    (run env).2 = (setupOTelSDK env (Context.NotifyContext Context.Background)
      [Event.NotifyContext]).1.trace ++ [Event.stop] ∧
    (∀ ev ∈ (run env).2, ev ≠ Event.newServer ∧ ev ≠ Event.goListenAndServe ∧
      (∀ c r, ev ≠ Event.srvShutdown c r) ∧
      ev ≠ Event.shutdown Context.Background ∧
      (∀ u r, ev ≠ Event.teardown u Context.Background r)) := by
  rw [run_setup_fails env e h]
  refine ⟨rfl, rfl, ?_⟩
  cases h1 : env.otlptracehttpNew (Context.NotifyContext Context.Background) with
  | some e1 =>
    rw [setupOTelSDK_trace_fails env _ _ e1 h1]
    simp
  | none =>
    cases h2 : env.stdoutmetricNew with
    | some e2 =>
      rw [setupOTelSDK_meter_fails env _ _ e2 h1 h2]
      simp
    | none =>
      rw [setupOTelSDK_ok env _ _ h1 h2] at h
      simp at h

/-- Witness for C8 at `envMeterFails`. -/
theorem run_returns_setup_error_unchanged_witness :
    (run envMeterFails).1 =
        some (GoError.joinError [GoError.base 2, GoError.joinError [GoError.base 3]]) ∧
      (run envMeterFails).2 = [Event.NotifyContext, Event.SetTextMapPropagator,
        Event.otlptracehttpNew (Context.NotifyContext Context.Background) none,
        Event.NewTracerProvider, Event.SetTracerProvider,
        Event.stdoutmetricNew (some (GoError.base 2)),
        Event.shutdown (Context.NotifyContext Context.Background),
        Event.teardown UnitName.tracerProvider (Context.NotifyContext Context.Background)
          (some (GoError.base 3)), Event.stop] := by
  have h := run_returns_setup_error_unchanged envMeterFails
    (GoError.joinError [GoError.base 2, GoError.joinError [GoError.base 3]]) rfl
  exact ⟨h.1, h.2.1⟩

/-- C6, as stated, fails: when the listener reports an error before any
interruption, `run` never invokes the listener's `Shutdown`, whereas on the
interruption path it does. -/
theorem run_listener_error_skips_listener_shutdown :
    (¬ ∃ c r, Event.srvShutdown c r ∈ (run envListenerFails).2) ∧
    (∃ c r, Event.srvShutdown c r ∈ (run envInterrupted).2) := by
  have h1 : (run envListenerFails).2 = startedTrace ++
      [Event.recvSrvErr (some (GoError.base 4)), Event.shutdown Context.Background,
        Event.teardown UnitName.tracerProvider Context.Background none,
        Event.teardown UnitName.meterProvider Context.Background none, Event.stop] := rfl
  have h2 : (run envInterrupted).2 = startedTrace ++ [Event.ctxDone, Event.stop,
        Event.srvShutdown Context.Background none, Event.shutdown Context.Background,
        Event.teardown UnitName.tracerProvider Context.Background none,
        Event.teardown UnitName.meterProvider Context.Background none, Event.stop] := rfl
  constructor
  · rw [h1]
    simp [startedTrace]
  · exact ⟨Context.Background, none, by rw [h2]; simp⟩

/-- C6, amended: when setup succeeded and the listener delivers `e` on `srvErr`
before any interruption, `run` returns from the `select` at once: the
listener's `Shutdown` is not invoked and `stop()` is not called there; the only
shutdown steps are the deferred telemetry teardown (`otelShutdown` with
`context.Background()`, which calls the tracer provider's and then the meter
provider's `Shutdown`, once each) and the deferred `stop()`.  On the
interruption path the same teardown is preceded by `stop()` and by the
listener's `Shutdown`. -/
theorem run_listener_error_only_tears_down_telemetry (env : Env)
    (hsetup : (setupOTelSDK env (Context.NotifyContext Context.Background)
      [Event.NotifyContext]).2 = none) :
    (∀ e : Option GoError, env.srvErr = some e →
      (∀ c r, Event.srvShutdown c r ∉ (run env).2) ∧
      ∃ r2 r3 : Option GoError,
        (run env).2 = startedTrace ++ [Event.recvSrvErr e, Event.shutdown Context.Background,
          Event.teardown UnitName.tracerProvider Context.Background r2,
          Event.teardown UnitName.meterProvider Context.Background r3, Event.stop]) ∧
    (env.srvErr = none →
      ∃ rL r2 r3 : Option GoError,
        (run env).2 = startedTrace ++ [Event.ctxDone, Event.stop,
          Event.srvShutdown Context.Background rL, Event.shutdown Context.Background,
          Event.teardown UnitName.tracerProvider Context.Background r2,
          Event.teardown UnitName.meterProvider Context.Background r3, Event.stop]) := by
  obtain ⟨h1, h2⟩ := (setupOTelSDK_err_eq_none_iff env _ _).mp hsetup
  constructor
  · intro e hsel
    have htr := run_trace_of_srvErr env e h1 h2 hsel
    refine ⟨?_, _, _, htr⟩
    intro c r
    rw [htr]
    simp [startedTrace]
  · intro hsel
    exact ⟨_, _, _, run_trace_of_ctxDone env h1 h2 hsel⟩

/-- Witness for the amended C6 at `envListenerFails`. -/
theorem run_listener_error_only_tears_down_telemetry_witness :
    (∀ c r, Event.srvShutdown c r ∉ (run envListenerFails).2) ∧
      ∃ r2 r3 : Option GoError,
        (run envListenerFails).2 = startedTrace ++ [Event.recvSrvErr (some (GoError.base 4)),
          Event.shutdown Context.Background,
          Event.teardown UnitName.tracerProvider Context.Background r2,
          Event.teardown UnitName.meterProvider Context.Background r3, Event.stop] :=
  (run_listener_error_only_tears_down_telemetry envListenerFails rfl).1
    (some (GoError.base 4)) rfl

/-- C10, as stated, fails: on the interruption path the listener's `Shutdown`,
the telemetry teardown `otelShutdown` and both providers' `Shutdown` are
invoked with `context.Background()`, whose `Deadline()` is none. -/
theorem run_shutdown_contexts_carry_no_deadline_example :
    Event.srvShutdown Context.Background none ∈ (run envInterrupted).2 ∧
    Event.shutdown Context.Background ∈ (run envInterrupted).2 ∧
    Event.teardown UnitName.tracerProvider Context.Background none ∈ (run envInterrupted).2 ∧
    Event.teardown UnitName.meterProvider Context.Background none ∈ (run envInterrupted).2 ∧
    Context.Background.Deadline = none ∧
    ¬ (∀ c r, Event.srvShutdown c r ∈ (run envInterrupted).2 → c.Deadline ≠ none) ∧
    ¬ (∀ c, Event.shutdown c ∈ (run envInterrupted).2 → c.Deadline ≠ none) := by
  have h2 : (run envInterrupted).2 = startedTrace ++ [Event.ctxDone, Event.stop,
        Event.srvShutdown Context.Background none, Event.shutdown Context.Background,
        Event.teardown UnitName.tracerProvider Context.Background none,
        Event.teardown UnitName.meterProvider Context.Background none, Event.stop] := rfl
  have hm : Event.srvShutdown Context.Background none ∈ (run envInterrupted).2 := by
    rw [h2]; simp
  have hs : Event.shutdown Context.Background ∈ (run envInterrupted).2 := by
    rw [h2]; simp
  refine ⟨hm, hs, by rw [h2]; simp, by rw [h2]; simp, rfl, ?_, ?_⟩
  · intro h
    exact h Context.Background none hm rfl
  · intro h
    exact h Context.Background hs rfl

/-- C10, amended: on every path of `run`, the listener's `Shutdown` is invoked
with `context.Background()`; the telemetry teardown closure and every teardown
callback are invoked either with `context.Background()` (the final teardown
deferred by `run`, the only one there is when setup succeeded) or with the
signal context derived from it (the teardown `setupOTelSDK` performs when a
construction fails); neither context carries a deadline. -/
theorem run_shutdown_contexts_carry_no_deadline (env : Env) (ev : Event)
    (hev : ev ∈ (run env).2) (c : Context) (r : Option GoError) :
    (ev = Event.srvShutdown c r → c = Context.Background) ∧
    ((ev = Event.shutdown c ∨ ∃ u, ev = Event.teardown u c r) →
      c = Context.Background ∨ c = Context.NotifyContext Context.Background) ∧
    ((setupOTelSDK env (Context.NotifyContext Context.Background)
      [Event.NotifyContext]).2 = none →
        (ev = Event.shutdown c ∨ ∃ u, ev = Event.teardown u c r) → c = Context.Background) ∧
    ((ev = Event.srvShutdown c r ∨ ev = Event.shutdown c ∨ ∃ u, ev = Event.teardown u c r) →
      c.Deadline = none) := by
  have key : (ev = Event.srvShutdown c r → c = Context.Background) ∧
      ((ev = Event.shutdown c ∨ ∃ u, ev = Event.teardown u c r) →
        c = Context.Background ∨ c = Context.NotifyContext Context.Background) ∧
      ((setupOTelSDK env (Context.NotifyContext Context.Background)
        [Event.NotifyContext]).2 = none →
          (ev = Event.shutdown c ∨ ∃ u, ev = Event.teardown u c r) →
            c = Context.Background) := by
    rcases run_trace_shape env with ⟨hne, e, htr⟩ | ⟨hne, e, r1, htr⟩ | ⟨e, r2, r3, htr⟩ |
        ⟨rL, r2, r3, htr⟩ <;>
      rw [htr] at hev <;>
      refine ⟨?_, ?_, ?_⟩ <;>
      intros <;> simp [startedTrace] at hev <;> aesop
  refine ⟨key.1, key.2.1, key.2.2, ?_⟩
  rintro (h | h)
  · rw [key.1 h]; rfl
  · rcases key.2.1 h with hc | hc <;> rw [hc] <;> rfl

/-- Witness for the amended C10 at `envInterrupted` and the call of the
listener's `Shutdown` in its trace. -/
theorem run_shutdown_contexts_carry_no_deadline_witness :
    Event.srvShutdown Context.Background none ∈ (run envInterrupted).2 ∧
      Context.Background.Deadline = none := by
  have h2 : (run envInterrupted).2 = startedTrace ++ [Event.ctxDone, Event.stop,
        Event.srvShutdown Context.Background none, Event.shutdown Context.Background,
        Event.teardown UnitName.tracerProvider Context.Background none,
        Event.teardown UnitName.meterProvider Context.Background none, Event.stop] := rfl
  have hm : Event.srvShutdown Context.Background none ∈ (run envInterrupted).2 := by
    rw [h2]; simp
  exact ⟨hm, (run_shutdown_contexts_carry_no_deadline envInterrupted
    (Event.srvShutdown Context.Background none) hm Context.Background none).2.2.2
      (Or.inl rfl)⟩

end Dice
